import Mathlib

/-!
Verification development for the url-shortner repository.

The embedding covers the resolution-and-event pipeline:
  * the short-code Allocator (`url-service/index.js`, POST /api/v1/url),
  * the Resolver (`redirect-service`, GET /:shortCode),
  * the Ingestor (`analytics-service`, the RabbitMQ consumer in
    `startConsumer`).

External collaborators (Joi's `uri` validator, the WHATWG `new URL`
parser, the nanoid generator, Sequelize persistence) are modelled as
explicit parameters or small inductive outcome types, so that the
control flow of the repository's own code is translated verbatim.
-/

set_option autoImplicit false

namespace UrlShortner

/-- A JavaScript value as it appears in the parsed click-event payloads:
a field can be absent (`undef`), `null`, or a string. Other JSON value
kinds do not occur in the events built by the redirect service. -/
inductive JsVal where
  | undef
  | nullv
  | str (s : String)
deriving DecidableEq, Repr

/-- JavaScript truthiness for the values of `JsVal`: `undefined`, `null`
and the empty string are falsy, every other string is truthy. -/
def JsVal.truthy : JsVal → Bool
  | .str s => s ≠ ""
  | _ => false

/-- The JavaScript `a || b` idiom used throughout the sources
(`req.ip || req.connection.remoteAddress || 'unknown'`, `event.referer || null`). -/
def jsOr (a b : JsVal) : JsVal := if a.truthy then a else b

/-! ## The Code Store (Redis)

The url-service and the redirect-service share a Redis instance mapping
short codes to destination URLs. `setEx` stores a value together with a
TTL in seconds; `get` returns the most recently written value. -/

/-- One stored mapping: destination URL plus the TTL (seconds) it was
written with (`redisClient.setEx(shortCode, ttl, longUrl)`). -/
structure StoreEntry where
  url : String
  ttl : Nat
deriving DecidableEq, Repr

/-- The Code Store: an association list from short code to entry; a
later `setEx` shadows an earlier one, matching Redis overwrite
semantics. -/
abbrev Store := List (String × StoreEntry)

/-- Redis `GET key`: the most recently written entry for the key. -/
def Store.get : Store → String → Option StoreEntry
  | [], _ => none
  | (k, e) :: rest, key => if k = key then some e else Store.get rest key

/-- Redis `EXISTS key` (as the boolean the services use it for). -/
def Store.existsKey (s : Store) (k : String) : Bool := (s.get k).isSome

/-- Redis `SETEX key ttl value`. -/
def Store.setEx (s : Store) (k : String) (ttl : Nat) (v : String) : Store :=
  (k, ⟨v, ttl⟩) :: s

/-! ## The Ingestor (analytics-service consumer)

Translation of `startConsumer` in `analytics-service/index.js` (the
hardened version): the message handler parses the payload, normalizes
it into the object passed to `Click.create`, persists it, and then
acks; on an exception it nacks, requeueing unless the error is a
`SequelizeValidationError` or a JSON `SyntaxError`. -/

/-- The wire-format click event after `JSON.parse`: each field is a
`JsVal` (absent keys read as `undefined`). -/
structure RawEvent where
  shortCode : JsVal
  timestamp : JsVal
  ipAddress : JsVal
  userAgent : JsVal
  referer : JsVal
  longUrl : JsVal
deriving DecidableEq, Repr

/-- The `validatedEvent` object the consumer builds and hands to
`Click.create`. The `new Date(event.timestamp)` conversion is kept as
the raw value since no claim concerns the date parsing itself. -/
structure ClickRecord where
  shortCode : JsVal
  timestamp : JsVal
  ipAddress : JsVal
  userAgent : JsVal
  referer : JsVal
  longUrl : JsVal
deriving DecidableEq, Repr

/-- Field normalization performed by the consumer (analytics-service,
`startConsumer`): `ipAddress` and `userAgent` map the sentinel string
`'unknown'` to `null`; `referer` and `longUrl` use `event.x || null`,
mapping absent (and other falsy) values to `null`. -/
def normalizeEvent (e : RawEvent) : ClickRecord :=
  { shortCode := e.shortCode
  , timestamp := e.timestamp
  , ipAddress := if e.ipAddress = .str "unknown" then .nullv else e.ipAddress
  , userAgent := if e.userAgent = .str "unknown" then .nullv else e.userAgent
  , referer := jsOr e.referer .nullv
  , longUrl := jsOr e.longUrl .nullv }

/-- Outcome of `Click.create`: success, or an exception carrying the
Sequelize error-class name the catch block inspects. -/
inductive PersistOutcome where
  | ok
  | err (name : String)
deriving DecidableEq, Repr

/-- Observable actions of one run of the consumer's message handler,
in program order. -/
inductive ConsumeAction where
  | parseFail
  | persistAttempt (r : ClickRecord)
  | persistOk (r : ClickRecord)
  | ackMsg
  | nackMsg (requeue : Bool)
deriving DecidableEq, Repr

/-- One run of the consumer's message handler (analytics-service,
`startConsumer`). `parsed` is the result of `JSON.parse` on the message
body (`none` when it throws `SyntaxError`); `persist` is the outcome of
`Click.create` on the normalized record. The trace lists the actions in
the order the handler performs them: a parse failure is caught and
nacked without requeue; after a successful parse the record is
persisted; on success the message is acked; on an exception named
`SequelizeValidationError` it is nacked without requeue, on any other
exception it is nacked with requeue. -/
def handleMessage (parsed : Option RawEvent) (persist : ClickRecord → PersistOutcome) :
    List ConsumeAction :=
  match parsed with
  | none => [.parseFail, .nackMsg false]
  | some ev =>
    match persist (normalizeEvent ev) with
    | .ok => [.persistAttempt (normalizeEvent ev), .persistOk (normalizeEvent ev), .ackMsg]
    | .err n =>
      if n = "SequelizeValidationError"
      then [.persistAttempt (normalizeEvent ev), .nackMsg false]
      else [.persistAttempt (normalizeEvent ev), .nackMsg true]

/-- The consumer handles queued messages one at a time, each with an
independent handler run. -/
def processMessages (msgs : List (Option RawEvent))
    (persist : ClickRecord → PersistOutcome) : List (List ConsumeAction) :=
  msgs.map (handleMessage · persist)

/-- Transient infrastructure failures as the analytics-service itself
classifies them: the Sequelize `retry.match` patterns (ConnectionError,
ConnectionRefusedError, ConnectionTimedOutError, TimeoutError) applied
to the Sequelize error-class names. -/
def isTransientErrName (n : String) : Bool :=
  n = "SequelizeConnectionError" || n = "SequelizeConnectionRefusedError" ||
  n = "SequelizeConnectionTimedOutError" || n = "SequelizeTimeoutError"

/-- In a handler trace, every acknowledgement is preceded by a
successful persistence: wherever the trace splits around an `ackMsg`,
some `persistOk` already occurs strictly before it. -/
def ackOnlyAfterPersist (l : List ConsumeAction) : Prop :=
  ∀ l₁ l₂ : List ConsumeAction, l = l₁ ++ .ackMsg :: l₂ →
    ∃ r, ConsumeAction.persistOk r ∈ l₁

/-! ## The Allocator (url-service, POST /api/v1/url)

Translation of the hardened url-service handler. Joi's `uri()`
validator is an external collaborator and enters as the parameter
`validUri`; the nanoid generator enters as the stream `gen` of draws
(`gen i` is the value of the `i`-th `nanoid(7)` call). -/

/-- Characters admitted by the Joi pattern `^[a-zA-Z0-9_-]+$` used for
`customCode` in `urlSchema`. -/
def isCustomCodeChar (c : Char) : Bool := c.isAlphanum || c = '_' || c = '-'

/-- The `customCode` rule of `urlSchema`:
`Joi.string().pattern(^[a-zA-Z0-9_-]+$).min(3).max(20)`. -/
def validCustomCode (s : String) : Bool :=
  3 ≤ s.length && s.length ≤ 20 && s.data.all isCustomCodeChar

/-- The request body of POST /api/v1/url as `urlSchema` sees it. -/
structure AllocRequest where
  longUrl : Option String
  customCode : Option String
deriving DecidableEq, Repr

/-- `urlSchema.validate(req.body)`: `longUrl` is a required `uri()`,
`customCode` is optional with the pattern and length rule above. -/
def urlSchemaOk (validUri : String → Bool) (r : AllocRequest) : Bool :=
  (match r.longUrl with
   | some u => validUri u
   | none => false) &&
  (match r.customCode with
   | some c => validCustomCode c
   | none => true)

/-- HTTP-outcome of the allocation handler. `created` is the 201
response carrying the short code; `validationError` is 400,
`unavailable` 503, `conflict` 409, and `exhausted` the 500 returned
when ten nanoid draws all collide. -/
inductive AllocOutcome where
  | created (code : String)
  | validationError
  | unavailable
  | conflict
  | exhausted
deriving DecidableEq, Repr

/-- The random-code do/while loop: draw `gen i`, retry on an existing
key, give up after `maxAttempts` usable draws (the JS loop performs an
eleventh draw before returning 500, but discards it, so outcomes
agree). -/
def genLoop (store : Store) (gen : Nat → String) : Nat → Nat → Option String
  | _, 0 => none
  | i, fuel + 1 =>
    if store.existsKey (gen i) then genLoop store gen (i + 1) fuel else some (gen i)

/-- The allocation attempt budget (`maxAttempts = 10`). -/
def maxAttempts : Nat := 10

/-- The POST /api/v1/url handler: validate the body, require Redis to
be ready, take the custom code (after a conflict check) or generate a
fresh one, then store the mapping with `setEx(shortCode, 31536000,
longUrl)`. Returns the HTTP outcome together with the resulting store. -/
def allocate (validUri : String → Bool) (gen : Nat → String) (redisReady : Bool)
    (store : Store) (req : AllocRequest) : AllocOutcome × Store :=
  if ¬urlSchemaOk validUri req then (.validationError, store)
  else if ¬redisReady then (.unavailable, store)
  else
    match req.customCode, req.longUrl with
    | some c, some u =>
      if store.existsKey c then (.conflict, store)
      else (.created c, store.setEx c 31536000 u)
    | none, some u =>
      match genLoop store gen 0 maxAttempts with
      | none => (.exhausted, store)
      | some c => (.created c, store.setEx c 31536000 u)
    | _, none => (.validationError, store)

/-! ## The Resolver (redirect-service, GET /:shortCode)

Translation of the hardened redirect-service handler. The WHATWG
`new URL(longUrl)` check is the external parameter `urlParses`; the
RabbitMQ channel state and the outcome of `sendToQueue` are collapsed
into a `PublishCond`. -/

/-- The `shortCodeSchema` of the redirect service:
`Joi.string().alphanum().min(3).max(20)` — strictly alphanumeric, no
underscore or hyphen. -/
def validShortCode (s : String) : Bool :=
  3 ≤ s.length && s.length ≤ 20 && s.data.all Char.isAlphanum

/-- State of the event channel during one resolve: the channel variable
is null (RabbitMQ never connected), the publish succeeds, or the
publish throws (caught by the handler). -/
inductive PublishCond where
  | noChannel
  | pubOk
  | pubThrows
deriving DecidableEq, Repr

/-- The request metadata the resolver reads when building a click
event: `req.ip`, `req.connection.remoteAddress`, the `user-agent` and
`referer` headers. -/
structure ReqInfo where
  ip : JsVal
  remoteAddress : JsVal
  userAgent : JsVal
  referer : JsVal
deriving DecidableEq, Repr

/-- The click event the resolver publishes:
`{ shortCode, timestamp, ipAddress: req.ip || remoteAddress || 'unknown',
userAgent: ua || 'unknown', referer: referer || null, longUrl }`. -/
def mkClickEvent (req : ReqInfo) (now : String) (code url : String) : RawEvent :=
  { shortCode := .str code
  , timestamp := .str now
  , ipAddress := jsOr req.ip (jsOr req.remoteAddress (.str "unknown"))
  , userAgent := jsOr req.userAgent (.str "unknown")
  , referer := jsOr req.referer .nullv
  , longUrl := .str url }

/-- HTTP responses of the resolve handler: 400 invalid short code,
503 cache unavailable, 404 not found, 500 malformed stored URL, and
the 302 redirect carrying the destination. -/
inductive HttpResponse where
  | badRequest
  | unavailable
  | notFound
  | invalidStored
  | redirect (url : String)
deriving DecidableEq, Repr

/-- Result of one resolve: the HTTP response, the Redis GET calls
performed, and the click events actually handed to the queue. -/
structure ResolveOutput where
  response : HttpResponse
  lookups : List String
  published : List RawEvent
deriving DecidableEq, Repr

/-- The GET /:shortCode handler: validate the code format (before any
store access), require Redis to be ready, look the code up (404 when
absent), check the stored URL parses (500 otherwise), then publish the
click event — skipping when the channel is null and swallowing a
publish failure — and finally redirect with status 302. -/
def resolve (urlParses : String → Bool) (redisReady : Bool) (store : Store)
    (pub : PublishCond) (req : ReqInfo) (now : String) (shortCode : String) :
    ResolveOutput :=
  if ¬validShortCode shortCode then ⟨.badRequest, [], []⟩
  else if ¬redisReady then ⟨.unavailable, [], []⟩
  else
    match store.get shortCode with
    | none => ⟨.notFound, [shortCode], []⟩
    | some e =>
      if ¬urlParses e.url then ⟨.invalidStored, [shortCode], []⟩
      else
        let ev := mkClickEvent req now shortCode e.url
        match pub with
        | .noChannel => ⟨.redirect e.url, [shortCode], []⟩
        | .pubOk => ⟨.redirect e.url, [shortCode], [ev]⟩
        | .pubThrows => ⟨.redirect e.url, [shortCode], []⟩

/-! ## The nanoid generator

nanoid's default alphabet (the `urlAlphabet` of the nanoid package) has
64 URL-safe symbols: the 62 alphanumerics plus underscore and hyphen.
`nanoid(7)` returns a 7-character string over that alphabet. -/

/-- Membership in nanoid's default 64-symbol URL alphabet. -/
def isNanoidChar (c : Char) : Bool := c.isAlphanum || c = '-' || c = '_'

/-- The contract of a `nanoid(7)` draw: length 7, every character from
the 64-symbol URL alphabet. -/
def isNanoidOutput (s : String) : Bool := s.length = 7 && s.data.all isNanoidChar

/-! ## Concrete sample data used to instantiate the theorems -/

/-- A well-formed click event as the redirect service emits it. -/
def sampleEvent : RawEvent :=
  { shortCode := .str "abc1234"
  , timestamp := .str "2024-01-01T00:00:00.000Z"
  , ipAddress := .str "203.0.113.7"
  , userAgent := .str "curl/8.0"
  , referer := .nullv
  , longUrl := .str "https://example.org/a" }

/-- A click event whose referer header literally carried the string
`'unknown'` and whose ipAddress key is absent from the payload. -/
def refererUnknownEvent : RawEvent :=
  { shortCode := .str "abc1234"
  , timestamp := .str "2024-01-01T00:00:00.000Z"
  , ipAddress := .undef
  , userAgent := .str "curl/8.0"
  , referer := .str "unknown"
  , longUrl := .str "https://example.org/a" }

/-- Request metadata for a typical redirect request. -/
def sampleReq : ReqInfo :=
  { ip := .str "203.0.113.7"
  , remoteAddress := .undef
  , userAgent := .str "curl/8.0"
  , referer := .nullv }

/-! ## Helper lemmas -/

theorem Store.get_setEx_self (s : Store) (k : String) (ttl : Nat) (v : String) :
    (s.setEx k ttl v).get k = some ⟨v, ttl⟩ := by
  simp [Store.setEx, Store.get]

theorem Store.get_setEx_other (s : Store) (k k₂ : String) (ttl : Nat) (v : String)
    (h : k ≠ k₂) : (s.setEx k ttl v).get k₂ = s.get k₂ := by
  simp [Store.setEx, Store.get, h]

theorem Store.get_setEx_cases (s : Store) (k key v : String) (t : Nat) (e : StoreEntry)
    (h : (s.setEx k t v).get key = some e) : s.get key = some e ∨ e.ttl = t := by
  by_cases hk : k = key
  · subst hk
    rw [Store.get_setEx_self] at h
    right
    injection h with h₂
    rw [← h₂]
  · left
    rwa [Store.get_setEx_other _ _ _ _ _ hk] at h

theorem handleMessage_none (persist : ClickRecord → PersistOutcome) :
    handleMessage none persist = [.parseFail, .nackMsg false] := rfl

theorem handleMessage_ok (ev : RawEvent) (persist : ClickRecord → PersistOutcome)
    (hp : persist (normalizeEvent ev) = .ok) :
    handleMessage (some ev) persist =
      [.persistAttempt (normalizeEvent ev), .persistOk (normalizeEvent ev), .ackMsg] := by
  simp only [handleMessage]
  rw [hp]

theorem handleMessage_err (ev : RawEvent) (persist : ClickRecord → PersistOutcome)
    (n : String) (hp : persist (normalizeEvent ev) = .err n) :
    handleMessage (some ev) persist =
      if n = "SequelizeValidationError"
      then [.persistAttempt (normalizeEvent ev), .nackMsg false]
      else [.persistAttempt (normalizeEvent ev), .nackMsg true] := by
  simp only [handleMessage]
  rw [hp]

theorem genLoop_eq_gen (store : Store) (gen : Nat → String) :
    ∀ fuel i c, genLoop store gen i fuel = some c → ∃ j, c = gen j := by
  intro fuel
  induction fuel with
  | zero => intro i c h; simp [genLoop] at h
  | succ n ih =>
    intro i c h
    unfold genLoop at h
    split at h
    · exact ih _ _ h
    · injection h with h₂
      exact ⟨i, h₂.symm⟩

/-! ## Claim theorems -/

/-- Claim C2: in every run of the Ingestor's message handler, the
message is acknowledged only after `Click.create` has completed
successfully, and it is acknowledged exactly when the payload parsed
and persistence of the normalized record succeeded; on every other
path the message is never acknowledged. -/
theorem c2_ack_only_after_persist_success (parsed : Option RawEvent)
    (persist : ClickRecord → PersistOutcome) :
    ackOnlyAfterPersist (handleMessage parsed persist) ∧
    (ConsumeAction.ackMsg ∈ handleMessage parsed persist ↔
      ∃ ev, parsed = some ev ∧ persist (normalizeEvent ev) = .ok) := by
  cases parsed with
  | none =>
    rw [handleMessage_none]
    constructor
    · intro l₁ l₂ hl
      rcases l₁ with _ | ⟨a, _ | ⟨b, l₁⟩⟩ <;> simp_all
    · simp
  | some ev =>
    cases hp : persist (normalizeEvent ev) with
    | ok =>
      rw [handleMessage_ok ev persist hp]
      constructor
      · intro l₁ l₂ hl
        rcases l₁ with _ | ⟨a, _ | ⟨b, l₁⟩⟩
        · simp at hl
        · simp at hl
        · rcases l₁ with _ | ⟨c, l₁⟩
          · injection hl with h₁ hl₂
            injection hl₂ with h₂ hl₃
            subst h₂
            exact ⟨normalizeEvent ev, by simp⟩
          · simp at hl
      · simp only [List.mem_cons]
        exact ⟨fun _ => ⟨ev, rfl, hp⟩, fun _ => by simp⟩
    | err n =>
      rw [handleMessage_err ev persist n hp]
      constructor
      · intro l₁ l₂ hl
        split at hl <;>
          (rcases l₁ with _ | ⟨a, _ | ⟨b, l₁⟩⟩ <;> simp at hl)
      · split <;> simp [hp]

/-- Witness for C2 at a concrete message and a succeeding store. -/
theorem c2_witness :
    ConsumeAction.ackMsg ∈ handleMessage (some sampleEvent) (fun _ => .ok) :=
  (c2_ack_only_after_persist_success (some sampleEvent) (fun _ => .ok)).2.mpr
    ⟨sampleEvent, rfl, rfl⟩

/-- Claim C4, counterexample: a persistence failure whose error class is
`SequelizeDatabaseError` (for example a value-too-long database
constraint violation, a permanent failure of the stored data itself,
and not one of the connection/timeout classes the service itself labels
transient) is rejected WITH requeue by the handler, contradicting the
claim that a permanent persistence failure is never requeued. -/
theorem c4_counterexample :
    isTransientErrName "SequelizeDatabaseError" = false ∧
    ConsumeAction.nackMsg true ∈
      handleMessage (some sampleEvent) (fun _ => .err "SequelizeDatabaseError") := by
  constructor
  · rfl
  · simp [handleMessage]

/-- Claim C4 as amended: on a persistence failure the handler discards
(rejects without requeue) exactly when the error class is
`SequelizeValidationError`, and requeues every other failure — which
covers the transient connection/timeout classes, but also permanent
database-level errors. -/
theorem c4_amended_classification (ev : RawEvent)
    (persist : ClickRecord → PersistOutcome) (n : String)
    (hp : persist (normalizeEvent ev) = .err n) :
    (n = "SequelizeValidationError" →
      handleMessage (some ev) persist =
        [.persistAttempt (normalizeEvent ev), .nackMsg false]) ∧
    (n ≠ "SequelizeValidationError" →
      handleMessage (some ev) persist =
        [.persistAttempt (normalizeEvent ev), .nackMsg true]) ∧
    (isTransientErrName n = true →
      handleMessage (some ev) persist =
        [.persistAttempt (normalizeEvent ev), .nackMsg true]) := by
  rw [handleMessage_err ev persist n hp]
  refine ⟨fun h => by rw [if_pos h], fun h => by rw [if_neg h], fun h => ?_⟩
  have hn : n ≠ "SequelizeValidationError" := by
    simp only [isTransientErrName, Bool.or_eq_true, decide_eq_true_eq] at h
    rcases h with ((h | h) | h) | h <;> subst h <;> decide
  rw [if_neg hn]

/-- Witness for the amended C4: a transient connection failure is
requeued. -/
theorem c4_amended_witness :
    handleMessage (some sampleEvent) (fun _ => .err "SequelizeConnectionError") =
      [.persistAttempt (normalizeEvent sampleEvent), .nackMsg true] :=
  (c4_amended_classification sampleEvent (fun _ => .err "SequelizeConnectionError")
    "SequelizeConnectionError" rfl).2.2 rfl

/-- Claim C5: a message whose body fails to parse is rejected without
requeue, its handler run never attempts or completes a persistence and
never acks, and the surrounding queue processing of the other messages
is exactly what it would be without the malformed message. -/
theorem c5_poison_message_containment (ms₁ ms₂ : List (Option RawEvent))
    (persist : ClickRecord → PersistOutcome) :
    processMessages (ms₁ ++ none :: ms₂) persist =
      processMessages ms₁ persist ++
        [ConsumeAction.parseFail, ConsumeAction.nackMsg false] ::
          processMessages ms₂ persist ∧
    ConsumeAction.ackMsg ∉ handleMessage none persist ∧
    (∀ r, ConsumeAction.persistAttempt r ∉ handleMessage none persist) ∧
    (∀ r, ConsumeAction.persistOk r ∉ handleMessage none persist) ∧
    ConsumeAction.nackMsg false ∈ handleMessage none persist := by
  refine ⟨?_, ?_, ?_, ?_, ?_⟩ <;>
    simp [processMessages, handleMessage]

/-- Claim C8, counterexample: the claim says the sentinel `'unknown'`
maps to null and absence maps to null for all three optional fields,
but on an event whose referer is the string `'unknown'` and whose
ipAddress key is absent, normalization keeps the referer as `'unknown'`
and keeps the ipAddress undefined — neither becomes null. -/
theorem c8_counterexample :
    (normalizeEvent refererUnknownEvent).referer = .str "unknown" ∧
    (normalizeEvent refererUnknownEvent).referer ≠ .nullv ∧
    (normalizeEvent refererUnknownEvent).ipAddress = .undef ∧
    (normalizeEvent refererUnknownEvent).ipAddress ≠ .nullv := by
  refine ⟨rfl, by decide, rfl, by decide⟩

/-- Claim C8 as amended: normalization maps the `'unknown'` sentinel to
null for `ipAddress` and `userAgent` only (leaving any other value of
those fields, including an absent one, unchanged), while `referer` and
`longUrl` are mapped to null exactly when falsy — so an absent referer
becomes null but a referer equal to `'unknown'` is kept verbatim. -/
theorem c8_amended_normalization (e : RawEvent) :
    (e.ipAddress = .str "unknown" → (normalizeEvent e).ipAddress = .nullv) ∧
    (e.userAgent = .str "unknown" → (normalizeEvent e).userAgent = .nullv) ∧
    (e.ipAddress ≠ .str "unknown" → (normalizeEvent e).ipAddress = e.ipAddress) ∧
    (e.userAgent ≠ .str "unknown" → (normalizeEvent e).userAgent = e.userAgent) ∧
    ((e.referer = .undef ∨ e.referer = .nullv) → (normalizeEvent e).referer = .nullv) ∧
    (e.referer = .str "unknown" → (normalizeEvent e).referer = .str "unknown") ∧
    ((e.longUrl = .undef ∨ e.longUrl = .nullv) → (normalizeEvent e).longUrl = .nullv) := by
  refine ⟨fun h => ?_, fun h => ?_, fun h => ?_, fun h => ?_, fun h => ?_, fun h => ?_,
    fun h => ?_⟩
  · simp [normalizeEvent, h]
  · simp [normalizeEvent, h]
  · simp [normalizeEvent, h]
  · simp [normalizeEvent, h]
  · rcases h with h | h <;> simp [normalizeEvent, jsOr, JsVal.truthy, h]
  · simp [normalizeEvent, jsOr, JsVal.truthy, h]
  · rcases h with h | h <;> simp [normalizeEvent, jsOr, JsVal.truthy, h]

/-- Witness for the amended C8: on the concrete event whose referer is
the literal string `'unknown'`, normalization keeps it verbatim. -/
theorem c8_amended_witness :
    (normalizeEvent refererUnknownEvent).referer = .str "unknown" :=
  (c8_amended_normalization refererUnknownEvent).2.2.2.2.2.1 rfl

/-- Claim C3: for a well-formed custom code absent from the Code Store,
allocation succeeds, registers the code with the destination, and a
second allocation of the same custom code fails with Conflict, leaving
the store — and in particular the existing mapping — unchanged. -/
theorem c3_custom_code_conflict (validUri : String → Bool) (gen gen₂ : Nat → String)
    (store : Store) (u u₂ c : String)
    (hu : validUri u = true) (hu₂ : validUri u₂ = true)
    (hc : validCustomCode c = true) (habs : store.existsKey c = false) :
    allocate validUri gen true store ⟨some u, some c⟩ =
      (.created c, store.setEx c 31536000 u) ∧
    (store.setEx c 31536000 u).get c = some ⟨u, 31536000⟩ ∧
    allocate validUri gen₂ true (store.setEx c 31536000 u) ⟨some u₂, some c⟩ =
      (.conflict, store.setEx c 31536000 u) := by
  refine ⟨?_, Store.get_setEx_self store c 31536000 u, ?_⟩
  · simp [allocate, urlSchemaOk, hu, hc, habs]
  · simp [allocate, urlSchemaOk, hu₂, hc, Store.existsKey, Store.get_setEx_self]

/-- Witness for C3 on an empty store and a concrete custom code. -/
theorem c3_witness :
    allocate (fun s => s == "https://example.org/a") (fun _ => "zzzzzzz") true []
        ⟨some "https://example.org/a", some "my-code"⟩ =
      (.created "my-code", Store.setEx [] "my-code" 31536000 "https://example.org/a") ∧
    allocate (fun s => s == "https://example.org/a") (fun _ => "zzzzzzz") true
        (Store.setEx [] "my-code" 31536000 "https://example.org/a")
        ⟨some "https://example.org/a", some "my-code"⟩ =
      (.conflict, Store.setEx [] "my-code" 31536000 "https://example.org/a") := by
  have h := c3_custom_code_conflict (fun s => s == "https://example.org/a")
    (fun _ => "zzzzzzz") (fun _ => "zzzzzzz") [] "https://example.org/a"
    "https://example.org/a" "my-code" (by decide) (by decide) (by decide) (by decide)
  exact ⟨h.1, h.2.2⟩

/-- Claim C10: every successful allocation stores the mapping via
`setEx` with the fixed TTL of 31536000 seconds, and every entry of the
resulting store either predates the call or carries that TTL — no
success path writes a mapping without the one-year expiry. -/
theorem c10_ttl_one_year (validUri : String → Bool) (gen : Nat → String)
    (redisReady : Bool) (store : Store) (req : AllocRequest) (code : String)
    (s₂ : Store)
    (h : allocate validUri gen redisReady store req = (.created code, s₂)) :
    (∃ u, req.longUrl = some u ∧ s₂ = store.setEx code 31536000 u ∧
      s₂.get code = some ⟨u, 31536000⟩) ∧
    (∀ k e, s₂.get k = some e → store.get k = some e ∨ e.ttl = 31536000) := by
  unfold allocate at h
  split at h
  · simp at h
  · split at h
    · simp at h
    · split at h
      · next c u heq₁ heq₂ =>
        split at h
        · simp at h
        · injection h with h₁ h₂
          injection h₁ with h₃
          subst h₃
          subst h₂
          refine ⟨⟨u, heq₂, rfl, Store.get_setEx_self store c 31536000 u⟩, ?_⟩
          intro k e hk
          exact Store.get_setEx_cases store c k u 31536000 e hk
      · next u heq₁ heq₂ =>
        cases hg : genLoop store gen 0 maxAttempts with
        | none => rw [hg] at h; simp at h
        | some c =>
          rw [hg] at h
          injection h with h₁ h₂
          injection h₁ with h₃
          subst h₃
          subst h₂
          refine ⟨⟨u, heq₂, rfl, Store.get_setEx_self store c 31536000 u⟩, ?_⟩
          intro k e hk
          exact Store.get_setEx_cases store c k u 31536000 e hk
      · simp at h

/-- Witness for C10: the mapping created by a concrete allocation call
carries the one-year TTL. -/
theorem c10_witness :
    Store.get (Store.setEx [] "my-code" 31536000 "https://example.org/a") "my-code" =
      some ⟨"https://example.org/a", 31536000⟩ := by
  have h := (c10_ttl_one_year (fun s => s == "https://example.org/a")
    (fun _ => "zzzzzzz") true [] ⟨some "https://example.org/a", some "my-code"⟩
    "my-code" (Store.setEx [] "my-code" 31536000 "https://example.org/a") rfl).1
  obtain ⟨u, hu, -, hget⟩ := h
  injection hu with hu₂
  subst hu₂
  exact hget

/-- Claim C6: the HTTP result of a resolve never depends on the state
of the event channel or the outcome of the publish, and for a code
present in the store (well-formed, with Redis ready and a parseable
stored URL) it is the 302 redirect to the stored destination under
every publish condition. -/
theorem c6_redirect_independent_of_publish (urlParses : String → Bool)
    (redisReady : Bool) (store : Store) (req : ReqInfo) (now code u : String)
    (t : Nat) :
    (∀ pub pub', (resolve urlParses redisReady store pub req now code).response =
      (resolve urlParses redisReady store pub' req now code).response) ∧
    (validShortCode code = true → redisReady = true →
      store.get code = some ⟨u, t⟩ → urlParses u = true →
      ∀ pub, (resolve urlParses redisReady store pub req now code).response =
        .redirect u) := by
  constructor
  · intro pub pub'
    unfold resolve
    split
    · rfl
    · split
      · rfl
      · split
        · rfl
        · split
          · rfl
          · cases pub <;> cases pub' <;> rfl
  · intro h₁ h₂ h₃ h₄ pub
    cases pub <;> simp [resolve, h₁, h₂, h₃, h₄]

/-- Witness for C6: a concrete resolve redirects even when the publish
throws. -/
theorem c6_witness :
    (resolve (fun _ => true) true
        (Store.setEx [] "abc1234" 31536000 "https://example.org/a")
        .pubThrows sampleReq "2024-01-01T00:00:00.000Z" "abc1234").response =
      .redirect "https://example.org/a" :=
  (c6_redirect_independent_of_publish (fun _ => true) true
    (Store.setEx [] "abc1234" 31536000 "https://example.org/a") sampleReq
    "2024-01-01T00:00:00.000Z" "abc1234" "https://example.org/a" 31536000).2
    (by decide) rfl rfl rfl .pubThrows

/-- Claim C7: a short code whose format is invalid (outside length 3–20
or not purely alphanumeric) is rejected with the 400 InvalidFormat
response before any Code Store lookup is performed, while a well-formed
code absent from the store yields the distinct 404 NotFound response
after exactly one lookup. -/
theorem c7_invalid_format_before_lookup (urlParses : String → Bool)
    (redisReady : Bool) (store : Store) (pub : PublishCond) (req : ReqInfo)
    (now code : String) :
    (validShortCode code = false →
      resolve urlParses redisReady store pub req now code =
        ⟨.badRequest, [], []⟩) ∧
    (validShortCode code = true → redisReady = true → store.get code = none →
      resolve urlParses redisReady store pub req now code =
        ⟨.notFound, [code], []⟩) ∧
    HttpResponse.badRequest ≠ HttpResponse.notFound := by
  refine ⟨fun h => ?_, fun h₁ h₂ h₃ => ?_, by decide⟩
  · simp [resolve, h]
  · simp [resolve, h₁, h₂, h₃]

/-- Witness for C7: the concrete malformed codes `ab` (too short) and
`ab_c` (underscore outside the resolver's charset) are rejected without
a lookup, and a well-formed absent code gets 404. -/
theorem c7_witness :
    resolve (fun _ => true) true [] .pubOk sampleReq "t" "ab" =
      ⟨.badRequest, [], []⟩ ∧
    resolve (fun _ => true) true [] .pubOk sampleReq "t" "ab_c" =
      ⟨.badRequest, [], []⟩ ∧
    resolve (fun _ => true) true [] .pubOk sampleReq "t" "abc" =
      ⟨.notFound, ["abc"], []⟩ :=
  ⟨(c7_invalid_format_before_lookup (fun _ => true) true [] .pubOk sampleReq
      "t" "ab").1 (by decide),
   (c7_invalid_format_before_lookup (fun _ => true) true [] .pubOk sampleReq
      "t" "ab_c").1 (by decide),
   (c7_invalid_format_before_lookup (fun _ => true) true [] .pubOk sampleReq
      "t" "abc").2.1 (by decide) rfl rfl⟩

/-- Claim C1, failing execution: with the destination
`https://example.org/a` and a nanoid draw of `abc-123` (a legal output
of nanoid's 64-symbol URL alphabet), allocation succeeds and stores the
mapping, but resolving the very code the allocator returned yields the
400 InvalidFormat response of the redirect service — not a redirect to
the destination — because the redirect service accepts only strictly
alphanumeric codes while the allocator generates codes that may contain
`-` or `_`. -/
theorem c1_allocate_resolve_break :
    allocate (fun s => s == "https://example.org/a") (fun _ => "abc-123") true []
        ⟨some "https://example.org/a", none⟩ =
      (.created "abc-123", Store.setEx [] "abc-123" 31536000 "https://example.org/a") ∧
    isNanoidOutput "abc-123" = true ∧
    (Store.setEx [] "abc-123" 31536000 "https://example.org/a").get "abc-123" =
      some ⟨"https://example.org/a", 31536000⟩ ∧
    resolve (fun _ => true) true
        (Store.setEx [] "abc-123" 31536000 "https://example.org/a")
        .pubOk sampleReq "2024-01-01T00:00:00.000Z" "abc-123" =
      ⟨.badRequest, [], []⟩ := by
  refine ⟨by decide, by decide, by decide, by decide⟩

/-- Claim C9, counterexample: `abc-123` is a legal `nanoid(7)` draw, a
fresh allocation with no custom code can return exactly this code, and
it does not match the claimed pattern of seven characters drawn from
the 62-symbol alphanumeric alphabet. -/
theorem c9_counterexample :
    isNanoidOutput "abc-123" = true ∧
    allocate (fun s => s == "https://example.org/a") (fun _ => "abc-123") true []
        ⟨some "https://example.org/a", none⟩ =
      (.created "abc-123", Store.setEx [] "abc-123" 31536000 "https://example.org/a") ∧
    "abc-123".data.all Char.isAlphanum = false := by
  refine ⟨by decide, by decide, by decide⟩

/-- Claim C9 as amended: a code generated by an allocation without a
custom code is always 7 characters over nanoid's 64-symbol URL alphabet
(alphanumerics plus `-` and `_`), and whenever the drawn code happens
to be strictly alphanumeric, resolving it returns a redirect to the
original destination URL under every publish condition. -/
theorem c9_amended_generated_code (validUri urlParses : String → Bool)
    (gen : Nat → String) (store : Store) (u code : String) (s₂ : Store)
    (req : ReqInfo) (now : String)
    (hgen : ∀ i, isNanoidOutput (gen i) = true)
    (halloc : allocate validUri gen true store ⟨some u, none⟩ = (.created code, s₂))
    (hparse : urlParses u = true)
    (halpha : code.data.all Char.isAlphanum = true) :
    isNanoidOutput code = true ∧
    ∀ pub, (resolve urlParses true s₂ pub req now code).response = .redirect u := by
  unfold allocate at halloc
  split at halloc
  · simp at halloc
  · split at halloc
    · simp at halloc
    · split at halloc
      · next c u₂ heq₁ heq₂ => simp at heq₁
      · next u₂ heq₁ heq₂ =>
        injection heq₂ with hu₂
        subst hu₂
        cases hg : genLoop store gen 0 maxAttempts with
        | none => rw [hg] at halloc; simp at halloc
        | some c =>
          rw [hg] at halloc
          injection halloc with h₁ h₂
          injection h₁ with h₃
          subst h₃
          subst h₂
          obtain ⟨j, hj⟩ := genLoop_eq_gen store gen maxAttempts 0 c hg
          have hout : isNanoidOutput c = true := hj ▸ hgen j
          have h7 : c.length = 7 := by
            have := hout
            simp only [isNanoidOutput, Bool.and_eq_true, decide_eq_true_eq] at this
            exact this.1
          have hvalid : validShortCode c = true := by
            simp [validShortCode, h7, halpha]
          have hget : (store.setEx c 31536000 u).get c = some ⟨u, 31536000⟩ :=
            Store.get_setEx_self store c 31536000 u
          refine ⟨hout, fun pub => ?_⟩
          cases pub <;> simp [resolve, hvalid, hget, hparse]
      · simp at halloc

/-- Witness for the amended C9: a concrete allocation drawing the
alphanumeric code `abcd123` resolves back to the original destination. -/
theorem c9_amended_witness :
    (resolve (fun _ => true) true
        (Store.setEx [] "abcd123" 31536000 "https://example.org/a")
        .pubOk sampleReq "t" "abcd123").response =
      .redirect "https://example.org/a" :=
  (c9_amended_generated_code (fun s => s == "https://example.org/a") (fun _ => true)
    (fun _ => "abcd123") [] "https://example.org/a" "abcd123"
    (Store.setEx [] "abcd123" 31536000 "https://example.org/a") sampleReq "t"
    (fun _ => rfl) (by decide) rfl (by decide)).2 .pubOk

end UrlShortner
